import Mathlib

/-!
# Debug drawer and frame loop of `src/index.js`

A shallow embedding of the adapter code of `src/index.js`: the `DebugDrawer`
class (constructor, `begin`, `drawLine`, `drawCircle`, `end`), the two
callbacks `DrawSolidPolygon` and `DrawSolidCircle` that the solver invokes,
and the `onBeforeRenderObservable` callback with its module-scope variables
`currentTime`, `dt`, `lastTime` and `frame`.

Modelling conventions.

* JavaScript numbers that hold coordinates, colours and time differences are
  elements of an arbitrary field `α` (exact arithmetic); `ℚ` is used to
  evaluate the code on concrete inputs and `ℝ` where `Math.cos`, `Math.sin`
  and `Math.PI` have to be the real ones.  Loop counters, the frame counter
  and the degree angle of `drawCircle` only ever hold small non-negative
  integers and are `Nat`; `Date.now()` timestamps are `Int`.
* JavaScript arrays are lists, `push` appends at the end, and `a[i]` is
  `a[i]?`, where `none` is `undefined`.
* Reading a property of `undefined` throws a `TypeError`; the mutations made
  before the throw persist, so a method that can throw returns an `Outcome`:
  how it completed together with the drawer as it was left.
* The external libraries are parameters: `Box2D` (what `wrapPointer` reads
  from the WASM heap), `JSMath` (`Math.cos`, `Math.sin`, `Math.PI`) and
  `World` (`world.Step`, `world.DebugDraw`).
-/

namespace DebugDrawerBox2D

/-! ## Data model -/

/-- The 2D vector `b2Vec2` of the solver. -/
structure b2Vec2 (α : Type) where
  x : α
  y : α
deriving DecidableEq, Repr

/-- The colour `b2Color` of the solver; the code reads `r`, `g` and `b`. -/
structure b2Color (α : Type) where
  r : α
  g : α
  b : α
deriving DecidableEq, Repr

/-- The `Vector3` of the renderer. -/
structure Vector3 (α : Type) where
  x : α
  y : α
  z : α
deriving DecidableEq, Repr

/-- The `Color4` of the renderer. -/
structure Color4 (α : Type) where
  r : α
  g : α
  b : α
  a : α
deriving DecidableEq, Repr

/-- The line-system mesh built by `MeshBuilder.CreateLineSystem`: its name and
the `lines` and `colors` it was last given. -/
structure LineSystem (α : Type) where
  name : String
  lines : List (List (Vector3 α))
  colors : List (List (Color4 α))
deriving DecidableEq, Repr

/-- The part of `box2d` the drawer uses: `wrapPointer(p, b2Vec2)` and
`wrapPointer(p, b2Color)`, the objects read from the heap at address `p`. -/
structure Box2D (α : Type) where
  wrapPointer_b2Vec2 : Nat → b2Vec2 α
  wrapPointer_b2Color : Nat → b2Color α

/-- The part of the JavaScript object `Math` the drawer uses. -/
structure JSMath (α : Type) where
  cos : α → α
  sin : α → α
  PI : α

/-- The fields of a `DebugDrawer` object (`this.instance`, the callback
object, is the pair `DrawSolidPolygon`, `DrawSolidCircle` below). -/
structure DebugDrawer (α : Type) where
  unitsPerMeter : α
  sizeOfB2Vec2 : Nat
  fromX : α
  fromY : α
  toX : α
  toY : α
  debugColors : List (Color4 α)
  debugLines : List (Vector3 α)
  linesystem : Option (LineSystem α)
deriving DecidableEq, Repr

/-- How a call completed: normally, or by throwing a `TypeError` (a property
read on `undefined`). -/
inductive Completion where
  | normal
  | throwTypeError
deriving DecidableEq, Repr

/-- The result of a call that can throw: the completion and the drawer as the
call left it. -/
structure Outcome (α : Type) where
  completion : Completion
  drawer : DebugDrawer α
deriving DecidableEq, Repr

/-- Sequencing of statements: the next statement runs only when the previous
one completed normally. -/
def Outcome.andThen {α : Type} (o : Outcome α) (k : DebugDrawer α → Outcome α) : Outcome α :=
  match o.completion with
  | Completion.normal => k o.drawer
  | Completion.throwTypeError => o

/-! ## The `DebugDrawer` class -/

section Drawer

variable {α : Type} [Field α]

/-- The constant `Float32Array.BYTES_PER_ELEMENT`. -/
def Float32Array.BYTES_PER_ELEMENT : Nat := 4

/-- The helper `reifyArray(array_p, numElements, sizeOfElement, ctor)`: an array of
`numElements` entries, the entry at `index` being
`wrapPointer(array_p + index * sizeOfElement, ctor)`. -/
def reifyArray {β : Type} (wrapPointer : Nat → β) (array_p numElements sizeOfElement : Nat) :
    List β :=
  (List.range numElements).map (fun index => wrapPointer (array_p + index * sizeOfElement))

/-- The constructor `new DebugDrawer(unitsPerMeter)`. -/
def DebugDrawer.constructor (unitsPerMeter : α) : DebugDrawer α :=
  { unitsPerMeter := unitsPerMeter
    sizeOfB2Vec2 := Float32Array.BYTES_PER_ELEMENT * 2
    fromX := 0
    fromY := 0
    toX := 0
    toY := 0
    debugColors := []
    debugLines := []
    linesystem := none }

/-- The method `begin()`. -/
def DebugDrawer.begin (self : DebugDrawer α) : DebugDrawer α :=
  let self := { self with debugColors := [] }
  { self with debugLines := [] }

/-- The method `drawLine(from, to, color)`.  `from` and `to` may be `undefined` (`none`):
reading `from.x` or `to.x` then throws, after the assignments made so far.
`color` is always an object in the callers of this file. -/
def DebugDrawer.drawLine (self : DebugDrawer α) (from_ to_ : Option (b2Vec2 α))
    (color : b2Color α) : Outcome α :=
  match from_ with
  | none => ⟨Completion.throwTypeError, self⟩
  | some f =>
    let self := { self with fromX := f.x * self.unitsPerMeter }
    let self := { self with fromY := f.y * self.unitsPerMeter }
    match to_ with
    | none => ⟨Completion.throwTypeError, self⟩
    | some t =>
      let self := { self with toX := t.x * self.unitsPerMeter }
      let self := { self with toY := t.y * self.unitsPerMeter }
      let self := { self with debugLines := self.debugLines ++ [Vector3.mk self.fromX self.fromY 0] }
      let self := { self with debugLines := self.debugLines ++ [Vector3.mk self.toX self.toY 0] }
      let self := { self with debugColors := self.debugColors ++ [Color4.mk color.r color.g color.b 1] }
      let self := { self with debugColors := self.debugColors ++ [Color4.mk color.r color.g color.b 1] }
      ⟨Completion.normal, self⟩

/-- One pass of the body of the `for` loop of `drawCircle`: the loop state is
the pair of the local `angle` (in degrees) and the drawer. -/
def DebugDrawer.drawCircleBody (M : JSMath α) (x y r : α) (color : b2Color α) (angleStep : Nat)
    (st : Nat × DebugDrawer α) : Nat × DebugDrawer α :=
  let angle := st.1
  let self := st.2
  let x0 := r * M.cos ((angle : α) * M.PI / 180)
  let y0 := r * M.sin ((angle : α) * M.PI / 180)
  let self := { self with debugLines := self.debugLines ++ [Vector3.mk (x0 + x) (y0 + y) 0] }
  let self := { self with debugColors := self.debugColors ++ [Color4.mk color.r color.g color.b 1] }
  (angle + angleStep, self)

/-- The method `drawCircle(x, y, radius, color)`: the loop `for (let i = 0; i < n; i++)`
runs its body once for each `i` of `List.range n`.  The division in
`n = 360 / angleStep + 1` is exact (`n = 19`), and `angle` only takes the
values `0, 20, ..., 380`, so both are natural numbers here. -/
def DebugDrawer.drawCircle (M : JSMath α) (self : DebugDrawer α) (x y radius : α)
    (color : b2Color α) : DebugDrawer α :=
  let r := radius * 1.01
  let angle : Nat := 0
  let angleStep : Nat := 20
  let n : Nat := 360 / angleStep + 1
  ((List.range n).foldl
    (fun st _i => DebugDrawer.drawCircleBody M x y r color angleStep st) (angle, self)).2

/-- The method `end()`: the first commit creates the line system from the batch, later
commits update the lines of the existing instance. -/
def DebugDrawer.end (self : DebugDrawer α) : DebugDrawer α :=
  match self.linesystem with
  | none =>
    let created : LineSystem α :=
      { name := "linesystem", lines := [self.debugLines], colors := [self.debugColors] }
    { self with linesystem := some created }
  | some inst =>
    let updated : LineSystem α := { inst with lines := [self.debugLines] }
    { self with linesystem := some updated }

/-- The callback `DrawSolidPolygon(vertices_p, vertexCount, color_p)`. -/
def DrawSolidPolygon (box2d : Box2D α) (self : DebugDrawer α)
    (vertices_p vertexCount color_p : Nat) : Outcome α :=
  let color := box2d.wrapPointer_b2Color color_p
  let vertices := reifyArray box2d.wrapPointer_b2Vec2 vertices_p vertexCount self.sizeOfB2Vec2
  (self.drawLine vertices[0]? vertices[1]? color).andThen fun self =>
  (self.drawLine vertices[1]? vertices[2]? color).andThen fun self =>
  (self.drawLine vertices[2]? vertices[3]? color).andThen fun self =>
  self.drawLine vertices[3]? vertices[0]? color

/-- The callback `DrawSolidCircle(center_p, radius, axis_p, color_p)`. -/
def DrawSolidCircle (M : JSMath α) (box2d : Box2D α) (self : DebugDrawer α)
    (center_p : Nat) (radius : α) (_axis_p color_p : Nat) : Outcome α :=
  let center := box2d.wrapPointer_b2Vec2 center_p
  let color := box2d.wrapPointer_b2Color color_p
  ⟨Completion.normal,
    self.drawCircle M (center.x * self.unitsPerMeter) (center.y * self.unitsPerMeter)
      (radius * self.unitsPerMeter) color⟩

end Drawer

/-! ## The frame loop -/

/-- The state of the solver body `sphereRigidBody` that the callback reads
and writes. -/
structure Body (α : Type) where
  position : b2Vec2 α
  angle : α
  linearVelocity : b2Vec2 α
  angularVelocity : α
deriving DecidableEq, Repr

/-- The mesh named "Sphere" (`sphere` and `sphereMesh` are the same object):
its absolute position and its rotation. -/
structure Mesh (α : Type) where
  absolutePosition : Vector3 α
  rotation : Vector3 α
deriving DecidableEq, Repr

/-- The solver calls of the callback whose effect is not in this repository:
`world.Step(dt, velocityIterations, positionIterations)`, an arbitrary update
of the body, and `world.DebugDraw()`, an arbitrary sequence of calls into the
drawer that returns normally. -/
structure World (α : Type) where
  Step : α → Nat → Nat → Body α → Body α
  DebugDraw : Body α → DebugDrawer α → DebugDrawer α

/-- The variables captured by the `onBeforeRenderObservable` callback.
`currentTime` and `dt` are declared without a value (`none`). -/
structure Loop (α : Type) where
  sphereRigidBody : Body α
  sphere : Mesh α
  debugDrawer : DebugDrawer α
  currentTime : Option Int
  dt : Option α
  lastTime : Int
  frame : Nat
deriving DecidableEq, Repr

section Frame

variable {α : Type} [Field α]

/-- The solver call `body.GetPosition()`. -/
def Body.GetPosition (self : Body α) : b2Vec2 α := self.position

/-- The solver call `body.GetAngle()`. -/
def Body.GetAngle (self : Body α) : α := self.angle

/-- The solver call `body.SetTransform(position, angle)`. -/
def Body.SetTransform (self : Body α) (position : b2Vec2 α) (angle : α) : Body α :=
  { self with position := position, angle := angle }

/-- The solver call `body.SetLinearVelocity(v)`. -/
def Body.SetLinearVelocity (self : Body α) (v : b2Vec2 α) : Body α :=
  { self with linearVelocity := v }

/-- The solver call `body.SetAngularVelocity(omega)`. -/
def Body.SetAngularVelocity (self : Body α) (omega : α) : Body α :=
  { self with angularVelocity := omega }

/-- The renderer call `mesh.setAbsolutePosition(v)` for a mesh without a parent. -/
def Mesh.setAbsolutePosition (self : Mesh α) (v : Vector3 α) : Mesh α :=
  { self with absolutePosition := v }

/-- The state in which `init()` registers the callback: the body at its spawn
position, the mesh where `CreateSphere` put it, a new drawer,
`lastTime = Date.now()` and `frame = 0`. -/
def init (unitsPerMeter : α) (now : Int) : Loop α :=
  { sphereRigidBody :=
      { position := b2Vec2.mk (2.5 / unitsPerMeter) (5 / unitsPerMeter)
        angle := 0
        linearVelocity := b2Vec2.mk 0 0
        angularVelocity := 0 }
    sphere := { absolutePosition := Vector3.mk 0 0 0, rotation := Vector3.mk 0 0 0 }
    debugDrawer := DebugDrawer.constructor unitsPerMeter
    currentTime := none
    dt := none
    lastTime := now
    frame := 0 }

/-- The callback added to `scene.onBeforeRenderObservable`; `now` is what
`Date.now()` returns in this invocation.  The result is the value returned
(`frame = 0`, that is `0`, in the reset branch, `undefined` otherwise) and the
variables after the invocation. -/
def onBeforeRender (unitsPerMeter : α) (world : World α) (now : Int) (s : Loop α) :
    Option Nat × Loop α :=
  let spherePos := s.sphereRigidBody.GetPosition
  let moved : Mesh α := s.sphere.setAbsolutePosition
    (Vector3.mk (spherePos.x * unitsPerMeter) (spherePos.y * unitsPerMeter) 0)
  let s : Loop α := { s with sphere := moved }
  let turned : Mesh α :=
    { s.sphere with rotation := { s.sphere.rotation with z := s.sphereRigidBody.GetAngle } }
  let s : Loop α := { s with sphere := turned }
  let currentTime := now
  let dt : α := ((currentTime - s.lastTime : Int) : α) / 1000
  let s : Loop α := { s with currentTime := some currentTime, dt := some dt }
  let s : Loop α := { s with lastTime := currentTime }
  let s : Loop α := { s with sphereRigidBody := world.Step dt 3 2 s.sphereRigidBody }
  let s : Loop α := { s with debugDrawer := s.debugDrawer.begin }
  let s : Loop α := { s with debugDrawer := world.DebugDraw s.sphereRigidBody s.debugDrawer }
  let s : Loop α := { s with debugDrawer := s.debugDrawer.end }
  if s.frame ≥ 250 then
    let spawned : Body α := s.sphereRigidBody.SetTransform
      (b2Vec2.mk (2.5 / unitsPerMeter) (5 / unitsPerMeter)) 0
    let s : Loop α := { s with sphereRigidBody := spawned }
    let s : Loop α := { s with sphereRigidBody := s.sphereRigidBody.SetLinearVelocity (b2Vec2.mk 0 0) }
    let s : Loop α := { s with sphereRigidBody := s.sphereRigidBody.SetAngularVelocity 0 }
    (some 0, { s with frame := 0 })
  else
    (none, { s with frame := s.frame + 1 })

/-- The variables after one invocation of the callback for each timestamp of
the list, in order. -/
def runFrames (unitsPerMeter : α) (world : World α) : List Int → Loop α → Loop α
  | [], s => s
  | now :: rest, s => runFrames unitsPerMeter world rest (onBeforeRender unitsPerMeter world now s).2

/-- The values returned by the successive invocations of the callback. -/
def frameReturns (unitsPerMeter : α) (world : World α) : List Int → Loop α → List (Option Nat)
  | [], _ => []
  | now :: rest, s =>
    (onBeforeRender unitsPerMeter world now s).1 ::
      frameReturns unitsPerMeter world rest (onBeforeRender unitsPerMeter world now s).2

/-- A solver whose `Step` leaves the body alone and whose `DebugDraw` draws
nothing. -/
def idleWorld : World α :=
  { Step := fun _ _ _ body => body
    DebugDraw := fun _ drawer => drawer }

/-- A solver whose `Step` moves the body to `(1, 1)` and stores the `dt` it
was given in the angle of the body; its `DebugDraw` draws nothing. -/
def probeWorld : World α :=
  { Step := fun dt _ _ body => { body with position := b2Vec2.mk 1 1, angle := dt }
    DebugDraw := fun _ drawer => drawer }

/-- The calls of the methods of the drawer that build a batch. -/
inductive Call (α : Type) where
  | begin : Call α
  | drawLine (from_ to_ : b2Vec2 α) (color : b2Color α) : Call α
  | drawCircle (x y radius : α) (color : b2Color α) : Call α

/-- The drawer after one call. -/
def Call.run (M : JSMath α) (self : DebugDrawer α) : Call α → DebugDrawer α
  | Call.begin => self.begin
  | Call.drawLine from_ to_ color => (self.drawLine (some from_) (some to_) color).drawer
  | Call.drawCircle x y radius color => self.drawCircle M x y radius color

/-- The drawer after a sequence of calls, in order. -/
def Call.runAll (M : JSMath α) (self : DebugDrawer α) (calls : List (Call α)) : DebugDrawer α :=
  calls.foldl (Call.run M) self

/-- The colour arguments of the calls that appended the points of the batch,
one entry for each point, after one more call: `begin` leaves no point,
`drawLine` appends two points and `drawCircle` nineteen. -/
def Call.ownersStep (acc : List (b2Color α)) : Call α → List (b2Color α)
  | Call.begin => []
  | Call.drawLine _ _ color => acc ++ List.replicate 2 color
  | Call.drawCircle _ _ _ color => acc ++ List.replicate 19 color

/-- For each point of the batch built by a sequence of calls on a new drawer,
in batch order, the colour argument of the call that appended it. -/
def Call.owners (calls : List (Call α)) : List (b2Color α) :=
  calls.foldl Call.ownersStep []

/-- A heap holding the vertices `vs` from address `0` on, `8` bytes apart, and
the colour `color` at every address. -/
def heapOf (vs : List (b2Vec2 α)) (color : b2Color α) : Box2D α :=
  { wrapPointer_b2Vec2 := fun p => vs.getD (p / 8) (b2Vec2.mk 0 0)
    wrapPointer_b2Color := fun _ => color }

end Frame

/-! ## The drawer: polygons and `begin` -/

section DrawerTheorems

variable {α : Type} [Field α]

/-- C1: on a drawer whose batch was just cleared by `begin()`,
`DrawSolidPolygon` with four vertices `v0, v1, v2, v3` completes normally and
leaves `debugLines` equal to exactly the eight points of the closed loop
`0-1, 1-2, 2-3, 3-0`, each endpoint scaled by `unitsPerMeter`, with `z = 0`. -/
theorem DrawSolidPolygon_four_vertices (box2d : Box2D α) (d : DebugDrawer α)
    (vertices_p color_p : Nat) (v0 v1 v2 v3 : b2Vec2 α)
    (hv : reifyArray box2d.wrapPointer_b2Vec2 vertices_p 4 d.sizeOfB2Vec2 = [v0, v1, v2, v3]) :
    (DrawSolidPolygon box2d d.begin vertices_p 4 color_p).completion = Completion.normal ∧
    (DrawSolidPolygon box2d d.begin vertices_p 4 color_p).drawer.debugLines =
      [Vector3.mk (d.unitsPerMeter * v0.x) (d.unitsPerMeter * v0.y) 0,
       Vector3.mk (d.unitsPerMeter * v1.x) (d.unitsPerMeter * v1.y) 0,
       Vector3.mk (d.unitsPerMeter * v1.x) (d.unitsPerMeter * v1.y) 0,
       Vector3.mk (d.unitsPerMeter * v2.x) (d.unitsPerMeter * v2.y) 0,
       Vector3.mk (d.unitsPerMeter * v2.x) (d.unitsPerMeter * v2.y) 0,
       Vector3.mk (d.unitsPerMeter * v3.x) (d.unitsPerMeter * v3.y) 0,
       Vector3.mk (d.unitsPerMeter * v3.x) (d.unitsPerMeter * v3.y) 0,
       Vector3.mk (d.unitsPerMeter * v0.x) (d.unitsPerMeter * v0.y) 0] := by
  have hv2 : reifyArray box2d.wrapPointer_b2Vec2 vertices_p 4 d.begin.sizeOfB2Vec2
      = [v0, v1, v2, v3] := hv
  unfold DrawSolidPolygon
  simp only [hv2]
  simp [DebugDrawer.drawLine, Outcome.andThen, DebugDrawer.begin, mul_comm]

/-- The unit square `[(0,0),(1,0),(1,1),(0,1)]` at `unitsPerMeter = 3`: the
segments `(0,0)-(3,0)`, `(3,0)-(3,3)`, `(3,3)-(0,3)`, `(0,3)-(0,0)`. -/
theorem DrawSolidPolygon_four_vertices_witness :
    reifyArray (heapOf [b2Vec2.mk 0 0, b2Vec2.mk 1 0, b2Vec2.mk 1 1, b2Vec2.mk 0 1]
        (b2Color.mk (0 : ℚ) 1 0)).wrapPointer_b2Vec2 0 4
        (DebugDrawer.constructor (3 : ℚ)).sizeOfB2Vec2
      = [b2Vec2.mk 0 0, b2Vec2.mk 1 0, b2Vec2.mk 1 1, b2Vec2.mk 0 1] ∧
    (DrawSolidPolygon (heapOf [b2Vec2.mk 0 0, b2Vec2.mk 1 0, b2Vec2.mk 1 1, b2Vec2.mk 0 1]
        (b2Color.mk (0 : ℚ) 1 0)) (DebugDrawer.constructor (3 : ℚ)).begin 0 4 0).drawer.debugLines =
      [Vector3.mk 0 0 0, Vector3.mk 3 0 0, Vector3.mk 3 0 0, Vector3.mk 3 3 0,
       Vector3.mk 3 3 0, Vector3.mk 0 3 0, Vector3.mk 0 3 0, Vector3.mk 0 0 0] := by
  have hv : reifyArray (heapOf [b2Vec2.mk 0 0, b2Vec2.mk 1 0, b2Vec2.mk 1 1, b2Vec2.mk 0 1]
        (b2Color.mk (0 : ℚ) 1 0)).wrapPointer_b2Vec2 0 4
        (DebugDrawer.constructor (3 : ℚ)).sizeOfB2Vec2
      = [b2Vec2.mk 0 0, b2Vec2.mk 1 0, b2Vec2.mk 1 1, b2Vec2.mk 0 1] := by
    decide
  refine ⟨hv, ?_⟩
  have h := (DrawSolidPolygon_four_vertices _ _ 0 0 _ _ _ _ hv).2
  simpa [DebugDrawer.constructor] using h

/-- C2 (evaluation of the code): `DrawSolidPolygon` draws the edges
`0-1, 1-2, 2-3, 3-0` whatever `vertexCount` is.  For the triangle
`(0,0),(1,0),(0,1)` it draws the two edges `0-1` and `1-2` and then throws on
the missing vertex `3`, so the edge `2-0` is never drawn; for a pentagon it
completes with four edges, the last one `3-0`, and vertex `4` is not used. -/
theorem DrawSolidPolygon_triangle_and_pentagon :
    (DrawSolidPolygon (heapOf [b2Vec2.mk 0 0, b2Vec2.mk 1 0, b2Vec2.mk 0 1]
        (b2Color.mk (0 : ℚ) 1 0)) (DebugDrawer.constructor 3) 0 3 0).completion
      = Completion.throwTypeError ∧
    (DrawSolidPolygon (heapOf [b2Vec2.mk 0 0, b2Vec2.mk 1 0, b2Vec2.mk 0 1]
        (b2Color.mk (0 : ℚ) 1 0)) (DebugDrawer.constructor 3) 0 3 0).drawer.debugLines
      = [Vector3.mk 0 0 0, Vector3.mk 3 0 0, Vector3.mk 3 0 0, Vector3.mk 0 3 0] ∧
    (DrawSolidPolygon (heapOf [b2Vec2.mk 0 0, b2Vec2.mk 2 0, b2Vec2.mk 3 1, b2Vec2.mk 1 2,
        b2Vec2.mk (-1) 1] (b2Color.mk (0 : ℚ) 1 0)) (DebugDrawer.constructor 3) 0 5 0).completion
      = Completion.normal ∧
    (DrawSolidPolygon (heapOf [b2Vec2.mk 0 0, b2Vec2.mk 2 0, b2Vec2.mk 3 1, b2Vec2.mk 1 2,
        b2Vec2.mk (-1) 1] (b2Color.mk (0 : ℚ) 1 0)) (DebugDrawer.constructor 3) 0 5 0).drawer.debugLines
      = [Vector3.mk 0 0 0, Vector3.mk 6 0 0, Vector3.mk 6 0 0, Vector3.mk 9 3 0,
         Vector3.mk 9 3 0, Vector3.mk 3 6 0, Vector3.mk 3 6 0, Vector3.mk 0 0 0] := by
  refine ⟨?_, ?_, ?_, ?_⟩ <;>
    norm_num [DrawSolidPolygon, reifyArray, heapOf, DebugDrawer.drawLine, Outcome.andThen,
      DebugDrawer.constructor, Float32Array.BYTES_PER_ELEMENT, List.range_succ]

end DrawerTheorems

/-- C7: whatever the drawer holds, `begin()` leaves `debugLines` and
`debugColors` empty and changes neither `unitsPerMeter` nor the committed
`linesystem` (nor any other field). -/
theorem begin_empties_batch {α : Type} (d : DebugDrawer α) :
    d.begin.debugLines = [] ∧ d.begin.debugColors = [] ∧
    d.begin.unitsPerMeter = d.unitsPerMeter ∧ d.begin.linesystem = d.linesystem ∧
    d.begin = { d with debugLines := [], debugColors := [] } :=
  ⟨rfl, rfl, rfl, rfl, rfl⟩

/-! ## The drawer: circles -/

section CircleLemmas

variable {α : Type} [Field α]

/-- The loop of `drawCircle`, run over any list of indices from the angle `a`:
the angle advances by `step` per pass, and each pass appends one point and one
colour. -/
theorem drawCircle_loop (M : JSMath α) (x y r : α) (color : b2Color α) (step : Nat)
    (l : List Nat) (a : Nat) (d : DebugDrawer α) :
    l.foldl (fun st _i => DebugDrawer.drawCircleBody M x y r color step st) (a, d) =
      (a + step * l.length,
       { d with
         debugLines := d.debugLines ++ (List.range l.length).map (fun i =>
           Vector3.mk (r * M.cos (((a + step * i : Nat) : α) * M.PI / 180) + x)
             (r * M.sin (((a + step * i : Nat) : α) * M.PI / 180) + y) 0)
         debugColors := d.debugColors ++
           List.replicate l.length (Color4.mk color.r color.g color.b 1) }) := by
  induction l generalizing a d with
  | nil => simp
  | cons i rest ih =>
    have hstep : DebugDrawer.drawCircleBody M x y r color step (a, d) =
        (a + step,
         { d with
           debugLines := d.debugLines ++
             [Vector3.mk (r * M.cos ((a : α) * M.PI / 180) + x)
               (r * M.sin ((a : α) * M.PI / 180) + y) 0]
           debugColors := d.debugColors ++ [Color4.mk color.r color.g color.b 1] }) := rfl
    rw [List.foldl_cons, hstep, ih]
    simp only [List.length_cons, List.range_succ_eq_map, List.map_cons, List.map_map,
      List.replicate_succ, List.append_assoc, List.singleton_append, Nat.mul_zero, Nat.add_zero]
    refine Prod.ext ?_ ?_
    · simp only; ring
    · simp only [Function.comp_def, Nat.mul_succ]
      have h : ∀ j : Nat, a + step + step * j = a + (step * j + step) := fun j => by ring
      simp only [h]

/-- The batch after `drawCircle`: nineteen points, at the angles `20 * i`
degrees for `i = 0, ..., 18`, and nineteen copies of the colour are appended;
nothing else changes. -/
theorem drawCircle_eq (M : JSMath α) (d : DebugDrawer α) (x y radius : α) (color : b2Color α) :
    d.drawCircle M x y radius color =
      { d with
        debugLines := d.debugLines ++ (List.range 19).map (fun i =>
          Vector3.mk (radius * 1.01 * M.cos (((20 * i : Nat) : α) * M.PI / 180) + x)
            (radius * 1.01 * M.sin (((20 * i : Nat) : α) * M.PI / 180) + y) 0)
        debugColors := d.debugColors ++
          List.replicate 19 (Color4.mk color.r color.g color.b 1) } := by
  unfold DebugDrawer.drawCircle
  simp only [drawCircle_loop]
  simp

end CircleLemmas

/-- C3 (as amended): with the real `Math.cos`, `Math.sin` and `Math.PI`,
`DrawSolidCircle` completes normally and appends exactly nineteen points to
`debugLines`; the `i`-th is `(u*cx + R*cos(20*i deg), u*cy + R*sin(20*i deg), 0)`
with `R = rad*1.01*u`; the last one (360 degrees) repeats the first; every one
is at distance `|R|`, the absolute value of `rad*1.01*u`, from the scaled centre
`(u*cx, u*cy)`, and that distance is `R` itself when `rad*u` is not negative. -/
theorem DrawSolidCircle_points (box2d : Box2D ℝ) (d : DebugDrawer ℝ) (center_p : Nat)
    (rad : ℝ) (axis_p color_p : Nat) :
    let c := box2d.wrapPointer_b2Vec2 center_p
    let u := d.unitsPerMeter
    let R := rad * 1.01 * u
    let out := DrawSolidCircle (JSMath.mk Real.cos Real.sin Real.pi) box2d d center_p rad
      axis_p color_p
    let pt : Nat → Vector3 ℝ := fun i =>
      Vector3.mk (u * c.x + R * Real.cos (20 * (i : ℝ) * Real.pi / 180))
        (u * c.y + R * Real.sin (20 * (i : ℝ) * Real.pi / 180)) 0
    out.completion = Completion.normal ∧
    out.drawer.debugLines = d.debugLines ++ (List.range 19).map pt ∧
    ((List.range 19).map pt).length = 19 ∧
    pt 18 = pt 0 ∧
    (∀ i, Real.sqrt (((pt i).x - u * c.x) ^ 2 + ((pt i).y - u * c.y) ^ 2) = |R|) ∧
    (0 ≤ rad * u →
      ∀ i, Real.sqrt (((pt i).x - u * c.x) ^ 2 + ((pt i).y - u * c.y) ^ 2) = R) := by
  intro c u R out pt
  have hdist : ∀ i, Real.sqrt (((pt i).x - u * c.x) ^ 2 + ((pt i).y - u * c.y) ^ 2) = |R| := by
    intro i
    have h : ((pt i).x - u * c.x) ^ 2 + ((pt i).y - u * c.y) ^ 2 = R ^ 2 := by
      simp only [pt]
      have := Real.cos_sq_add_sin_sq (20 * (i : ℝ) * Real.pi / 180)
      linear_combination R ^ 2 * this
    rw [h, Real.sqrt_sq_eq_abs]
  refine ⟨rfl, ?_, by simp, ?_, hdist, ?_⟩
  · simp only [out, DrawSolidCircle, drawCircle_eq]
    congr 1
    apply List.map_congr_left
    intro i _
    simp only [pt, R, c, u, Nat.cast_mul, Nat.cast_ofNat]
    congr 1 <;> ring
  · simp only [pt]
    have h18 : 20 * ((18 : Nat) : ℝ) * Real.pi / 180 = 2 * Real.pi := by push_cast; ring
    have h0 : 20 * ((0 : Nat) : ℝ) * Real.pi / 180 = 0 := by simp
    rw [h18, h0]
    simp
  · intro hR i
    rw [hdist i, abs_of_nonneg]
    have : R = rad * u * 1.01 := by simp only [R]; ring
    rw [this]
    exact mul_nonneg hR (by norm_num)

/-- The sphere of the demo, `rad = 1/3` at the centre `(0, 0)` with
`unitsPerMeter = 3`: the nineteen points lie at distance `1/3 * 1.01 * 3`. -/
theorem DrawSolidCircle_points_witness :
    (0 : ℝ) ≤ 1 / 3 * (DebugDrawer.constructor (3 : ℝ)).unitsPerMeter ∧
    ∀ i : Nat, Real.sqrt
      ((3 * 0 + 1 / 3 * 1.01 * 3 * Real.cos (20 * (i : ℝ) * Real.pi / 180) - 3 * 0) ^ 2 +
        (3 * 0 + 1 / 3 * 1.01 * 3 * Real.sin (20 * (i : ℝ) * Real.pi / 180) - 3 * 0) ^ 2)
      = 1 / 3 * 1.01 * 3 := by
  have h0 : (0 : ℝ) ≤ 1 / 3 * (DebugDrawer.constructor (3 : ℝ)).unitsPerMeter := by
    simp [DebugDrawer.constructor]
  exact ⟨h0, (DrawSolidCircle_points (heapOf [b2Vec2.mk 0 0] (b2Color.mk 0 1 0))
    (DebugDrawer.constructor 3) 0 (1 / 3) 0 0).2.2.2.2.2 h0⟩

/-- C3 (counterexample): on a new drawer with `unitsPerMeter = 1`,
`DrawSolidCircle` with the centre `(0, 0)` and `radius = -1` appends nineteen
points, and each of them is at distance `1.01` from the scaled centre, not at
`rad*1.01*u = -1.01`. -/
theorem negative_radius_counterexample :
    (DrawSolidCircle (JSMath.mk Real.cos Real.sin Real.pi)
      (heapOf [b2Vec2.mk 0 0] (b2Color.mk (0 : ℝ) 1 0)) (DebugDrawer.constructor 1)
      0 (-1) 0 0).drawer.debugLines.length = 19 ∧
    ∀ p ∈ (DrawSolidCircle (JSMath.mk Real.cos Real.sin Real.pi)
      (heapOf [b2Vec2.mk 0 0] (b2Color.mk (0 : ℝ) 1 0)) (DebugDrawer.constructor 1)
      0 (-1) 0 0).drawer.debugLines,
      Real.sqrt ((p.x - 1 * 0) ^ 2 + (p.y - 1 * 0) ^ 2) = 1.01 ∧
      Real.sqrt ((p.x - 1 * 0) ^ 2 + (p.y - 1 * 0) ^ 2) ≠ (-1) * 1.01 * 1 := by
  have hlines : (DrawSolidCircle (JSMath.mk Real.cos Real.sin Real.pi)
      (heapOf [b2Vec2.mk 0 0] (b2Color.mk (0 : ℝ) 1 0)) (DebugDrawer.constructor 1)
      0 (-1) 0 0).drawer.debugLines =
      (List.range 19).map (fun i =>
        Vector3.mk (-1 * 1 * 1.01 * Real.cos (((20 * i : Nat) : ℝ) * Real.pi / 180) + 0 * 1)
          (-1 * 1 * 1.01 * Real.sin (((20 * i : Nat) : ℝ) * Real.pi / 180) + 0 * 1) 0) := by
    simp only [DrawSolidCircle, drawCircle_eq]
    rfl
  rw [hlines]
  refine ⟨by simp, ?_⟩
  intro p hp
  simp only [List.mem_map] at hp
  obtain ⟨i, -, rfl⟩ := hp
  have hsq : ((-1 * 1 * 1.01 * Real.cos (((20 * i : Nat) : ℝ) * Real.pi / 180) + 0 * 1
        - 1 * 0) ^ 2 +
      (-1 * 1 * 1.01 * Real.sin (((20 * i : Nat) : ℝ) * Real.pi / 180) + 0 * 1 - 1 * 0) ^ 2 : ℝ)
      = (1.01 : ℝ) ^ 2 := by
    have := Real.cos_sq_add_sin_sq (((20 * i : Nat) : ℝ) * Real.pi / 180)
    linear_combination (1.01 : ℝ) ^ 2 * this
  have hd : Real.sqrt ((-1 * 1 * 1.01 * Real.cos (((20 * i : Nat) : ℝ) * Real.pi / 180) + 0 * 1
        - 1 * 0) ^ 2 +
      (-1 * 1 * 1.01 * Real.sin (((20 * i : Nat) : ℝ) * Real.pi / 180) + 0 * 1 - 1 * 0) ^ 2)
      = 1.01 := by
    rw [hsq, Real.sqrt_sq (by norm_num)]
  refine ⟨hd, ?_⟩
  rw [hd]
  norm_num

section CircleTheorems

variable {α : Type} [Field α]

/-- C6 (as amended): `DrawSolidCircle` with `radius = 0` completes normally and
is not a no-op: it appends nineteen points, each the scaled centre
`(cx*u, cy*u, 0)`, and nineteen colours `(color.r, color.g, color.b, 1)`. -/
theorem DrawSolidCircle_zero_radius (M : JSMath α) (box2d : Box2D α) (d : DebugDrawer α)
    (center_p axis_p color_p : Nat) :
    (DrawSolidCircle M box2d d center_p 0 axis_p color_p).completion = Completion.normal ∧
    (DrawSolidCircle M box2d d center_p 0 axis_p color_p).drawer.debugLines =
      d.debugLines ++ List.replicate 19
        (Vector3.mk ((box2d.wrapPointer_b2Vec2 center_p).x * d.unitsPerMeter)
          ((box2d.wrapPointer_b2Vec2 center_p).y * d.unitsPerMeter) 0) ∧
    (DrawSolidCircle M box2d d center_p 0 axis_p color_p).drawer.debugColors =
      d.debugColors ++ List.replicate 19
        (Color4.mk (box2d.wrapPointer_b2Color color_p).r (box2d.wrapPointer_b2Color color_p).g
          (box2d.wrapPointer_b2Color color_p).b 1) := by
  refine ⟨rfl, ?_, ?_⟩
  · simp only [DrawSolidCircle, drawCircle_eq, zero_mul, zero_add]
    congr 1
  · simp only [DrawSolidCircle, drawCircle_eq]

end CircleTheorems

/-- C6 (counterexample): on a new drawer with `unitsPerMeter = 3`,
`DrawSolidPolygon` with `vertexCount = 0` throws a `TypeError`, and
`DrawSolidCircle` with `radius = 0` leaves nineteen points and nineteen colours
in the batch, which was empty. -/
theorem degenerate_input_counterexample :
    (DrawSolidPolygon (heapOf [] (b2Color.mk (0 : ℝ) 1 0)) (DebugDrawer.constructor 3)
      0 0 0).completion = Completion.throwTypeError ∧
    (DebugDrawer.constructor (3 : ℝ)).debugLines = [] ∧
    (DebugDrawer.constructor (3 : ℝ)).debugColors = [] ∧
    (DrawSolidCircle (JSMath.mk Real.cos Real.sin Real.pi)
      (heapOf [b2Vec2.mk 1 2] (b2Color.mk (0 : ℝ) 1 0)) (DebugDrawer.constructor 3)
      0 0 0 0).drawer.debugLines = List.replicate 19 (Vector3.mk 3 6 0) ∧
    (DrawSolidCircle (JSMath.mk Real.cos Real.sin Real.pi)
      (heapOf [b2Vec2.mk 1 2] (b2Color.mk (0 : ℝ) 1 0)) (DebugDrawer.constructor 3)
      0 0 0 0).drawer.debugColors = List.replicate 19 (Color4.mk 0 1 0 1) := by
  refine ⟨?_, rfl, rfl, ?_, ?_⟩
  · simp [DrawSolidPolygon, reifyArray, DebugDrawer.drawLine, Outcome.andThen]
  · simp only [DrawSolidCircle, drawCircle_eq, zero_mul, zero_add]
    simp only [DebugDrawer.constructor, heapOf, List.nil_append]
    refine List.eq_replicate_iff.mpr ⟨by simp, ?_⟩
    intro p hp
    simp only [List.mem_map] at hp
    obtain ⟨i, _, rfl⟩ := hp
    norm_num
  · simp [DrawSolidCircle, drawCircle_eq, DebugDrawer.constructor, heapOf]

section BatchTheorems

variable {α : Type} [Field α]

/-- The batch after `drawLine` with two defined endpoints: the two scaled
endpoints and two copies of the colour are appended. -/
theorem drawLine_batch (d : DebugDrawer α) (f t : b2Vec2 α) (c : b2Color α) :
    (d.drawLine (some f) (some t) c).completion = Completion.normal ∧
    (d.drawLine (some f) (some t) c).drawer.unitsPerMeter = d.unitsPerMeter ∧
    (d.drawLine (some f) (some t) c).drawer.debugLines = d.debugLines ++
      [Vector3.mk (f.x * d.unitsPerMeter) (f.y * d.unitsPerMeter) 0,
       Vector3.mk (t.x * d.unitsPerMeter) (t.y * d.unitsPerMeter) 0] ∧
    (d.drawLine (some f) (some t) c).drawer.debugColors = d.debugColors ++
      List.replicate 2 (Color4.mk c.r c.g c.b 1) := by
  simp [DebugDrawer.drawLine, List.replicate]

/-- One call keeps the two sequences parallel and extends the list of owners
by the colour of the call, once for each point it appends. -/
theorem run_keeps_parallel (M : JSMath α) (d : DebugDrawer α) (acc : List (b2Color α))
    (call : Call α)
    (hc : d.debugColors = acc.map (fun c => Color4.mk c.r c.g c.b 1))
    (hl : d.debugLines.length = acc.length) :
    (Call.run M d call).debugColors =
      (Call.ownersStep acc call).map (fun c => Color4.mk c.r c.g c.b 1) ∧
    (Call.run M d call).debugLines.length = (Call.ownersStep acc call).length ∧
    (Call.run M d call).unitsPerMeter = d.unitsPerMeter := by
  cases call with
  | begin => exact ⟨rfl, rfl, rfl⟩
  | drawLine f t c =>
    obtain ⟨_, hu, hlines, hcolors⟩ := drawLine_batch d f t c
    refine ⟨?_, ?_, hu⟩
    · simp [Call.run, Call.ownersStep, hcolors, hc, List.replicate]
    · simp [Call.run, Call.ownersStep, hlines, hl]
  | drawCircle x y r c =>
    refine ⟨?_, ?_, ?_⟩
    · simp [Call.run, Call.ownersStep, drawCircle_eq, hc]
    · simp [Call.run, Call.ownersStep, drawCircle_eq, hl]
    · simp [Call.run, drawCircle_eq]

/-- A sequence of calls keeps the two sequences parallel. -/
theorem runAll_keeps_parallel (M : JSMath α) (calls : List (Call α)) :
    ∀ (d : DebugDrawer α) (acc : List (b2Color α)),
      d.debugColors = acc.map (fun c => Color4.mk c.r c.g c.b 1) →
      d.debugLines.length = acc.length →
      (Call.runAll M d calls).debugColors =
        (calls.foldl Call.ownersStep acc).map (fun c => Color4.mk c.r c.g c.b 1) ∧
      (Call.runAll M d calls).debugLines.length = (calls.foldl Call.ownersStep acc).length ∧
      (Call.runAll M d calls).unitsPerMeter = d.unitsPerMeter := by
  induction calls with
  | nil => intro d acc hc hl; exact ⟨hc, hl, rfl⟩
  | cons call rest ih =>
    intro d acc hc hl
    obtain ⟨h1, h2, h3⟩ := run_keeps_parallel M d acc call hc hl
    obtain ⟨k1, k2, k3⟩ := ih (Call.run M d call) (Call.ownersStep acc call) h1 h2
    exact ⟨k1, k2, k3.trans h3⟩

/-- C10: after any sequence of `begin`, `drawLine` and `drawCircle` calls on a
new drawer, `debugColors` is as long as `debugLines` and the colour at each
index is `(color.r, color.g, color.b, 1)` for the `color` of the call that
appended the point at that index; a further `begin` empties both sequences, a
further `drawLine` appends two points and two colours, a further `drawCircle`
nineteen points and nineteen colours. -/
theorem batch_is_parallel (M : JSMath α) (u : α) (calls : List (Call α)) :
    (Call.runAll M (DebugDrawer.constructor u) calls).debugColors.length =
      (Call.runAll M (DebugDrawer.constructor u) calls).debugLines.length ∧
    (Call.runAll M (DebugDrawer.constructor u) calls).debugColors =
      (Call.owners calls).map (fun c => Color4.mk c.r c.g c.b 1) ∧
    ((Call.run M (Call.runAll M (DebugDrawer.constructor u) calls) Call.begin).debugLines = [] ∧
      (Call.run M (Call.runAll M (DebugDrawer.constructor u) calls) Call.begin).debugColors
        = []) ∧
    (∀ (f t : b2Vec2 α) (c : b2Color α),
      (Call.run M (Call.runAll M (DebugDrawer.constructor u) calls)
          (Call.drawLine f t c)).debugLines =
        (Call.runAll M (DebugDrawer.constructor u) calls).debugLines ++
          [Vector3.mk (f.x * u) (f.y * u) 0, Vector3.mk (t.x * u) (t.y * u) 0] ∧
      (Call.run M (Call.runAll M (DebugDrawer.constructor u) calls)
          (Call.drawLine f t c)).debugColors =
        (Call.runAll M (DebugDrawer.constructor u) calls).debugColors ++
          List.replicate 2 (Color4.mk c.r c.g c.b 1)) ∧
    (∀ (x y radius : α) (c : b2Color α), ∃ pts : List (Vector3 α), pts.length = 19 ∧
      (Call.run M (Call.runAll M (DebugDrawer.constructor u) calls)
          (Call.drawCircle x y radius c)).debugLines =
        (Call.runAll M (DebugDrawer.constructor u) calls).debugLines ++ pts ∧
      (Call.run M (Call.runAll M (DebugDrawer.constructor u) calls)
          (Call.drawCircle x y radius c)).debugColors =
        (Call.runAll M (DebugDrawer.constructor u) calls).debugColors ++
          List.replicate 19 (Color4.mk c.r c.g c.b 1)) := by
  obtain ⟨hc, hl, hu⟩ :=
    runAll_keeps_parallel M calls (DebugDrawer.constructor u) [] rfl rfl
  have hu2 : (Call.runAll M (DebugDrawer.constructor u) calls).unitsPerMeter = u := hu
  refine ⟨?_, hc, ⟨rfl, rfl⟩, ?_, ?_⟩
  · rw [hl, hc, List.length_map]
  · intro f t c
    obtain ⟨_, _, hlines, hcolors⟩ :=
      drawLine_batch (Call.runAll M (DebugDrawer.constructor u) calls) f t c
    rw [hu2] at hlines
    exact ⟨hlines, hcolors⟩
  · intro x y radius c
    refine ⟨(List.range 19).map (fun i =>
      Vector3.mk (radius * 1.01 * M.cos (((20 * i : Nat) : α) * M.PI / 180) + x)
        (radius * 1.01 * M.sin (((20 * i : Nat) : α) * M.PI / 180) + y) 0), ?_, ?_, ?_⟩
    · simp
    · simp only [Call.run, drawCircle_eq]
    · simp only [Call.run, drawCircle_eq]

end BatchTheorems

/-! ## The frame loop: counter, clock and order of the steps -/

section FrameTheorems

variable {α : Type} [Field α]

/-- One invocation of the callback, field by field. -/
theorem onBeforeRender_eq (u : α) (w : World α) (now : Int) (s : Loop α) :
    (onBeforeRender u w now s).1 = (if s.frame ≥ 250 then some 0 else none) ∧
    (onBeforeRender u w now s).2.frame = (if s.frame ≥ 250 then 0 else s.frame + 1) ∧
    (onBeforeRender u w now s).2.sphere.absolutePosition =
      Vector3.mk (s.sphereRigidBody.position.x * u) (s.sphereRigidBody.position.y * u) 0 ∧
    (onBeforeRender u w now s).2.sphere.rotation.z = s.sphereRigidBody.angle ∧
    (onBeforeRender u w now s).2.dt = some (((now - s.lastTime : Int) : α) / 1000) ∧
    (onBeforeRender u w now s).2.lastTime = now ∧
    (onBeforeRender u w now s).2.sphereRigidBody =
      (if s.frame ≥ 250 then
        { w.Step (((now - s.lastTime : Int) : α) / 1000) 3 2 s.sphereRigidBody with
          position := b2Vec2.mk (2.5 / u) (5 / u)
          angle := 0
          linearVelocity := b2Vec2.mk 0 0
          angularVelocity := 0 }
      else w.Step (((now - s.lastTime : Int) : α) / 1000) 3 2 s.sphereRigidBody) := by
  unfold onBeforeRender
  by_cases h : s.frame ≥ 250
  · simp [h, Body.GetPosition, Body.GetAngle, Mesh.setAbsolutePosition, Body.SetTransform,
      Body.SetLinearVelocity, Body.SetAngularVelocity]
  · simp [h, Body.GetPosition, Body.GetAngle, Mesh.setAbsolutePosition]

/-- While the counter stays at or below 250, each invocation adds one to it and
returns `undefined`. -/
theorem runFrames_counting (u : α) (w : World α) (nows : List Int) :
    ∀ s : Loop α, s.frame + nows.length ≤ 250 →
      (runFrames u w nows s).frame = s.frame + nows.length ∧
      ∀ r ∈ frameReturns u w nows s, r = none := by
  induction nows with
  | nil => intro s _; exact ⟨rfl, by simp [frameReturns]⟩
  | cons now rest ih =>
    intro s hs
    simp only [List.length_cons] at hs
    have hlt : ¬ s.frame ≥ 250 := by omega
    obtain ⟨h1, h2, -⟩ := onBeforeRender_eq u w now s
    simp only [hlt, if_false] at h1 h2
    obtain ⟨k1, k2⟩ := ih (onBeforeRender u w now s).2 (by rw [h2]; omega)
    refine ⟨?_, ?_⟩
    · simp only [runFrames, k1, h2, List.length_cons]; omega
    · intro r hr
      simp only [frameReturns, List.mem_cons] at hr
      rcases hr with hr | hr
      · rw [hr, h1]
      · exact k2 r hr

/-- The counter never exceeds 250. -/
theorem runFrames_frame_le (u : α) (w : World α) (nows : List Int) :
    ∀ s : Loop α, s.frame ≤ 250 → (runFrames u w nows s).frame ≤ 250 := by
  induction nows with
  | nil => intro s hs; exact hs
  | cons now rest ih =>
    intro s hs
    apply ih
    rw [(onBeforeRender_eq u w now s).2.1]
    split_ifs <;> omega

/-- C4 (evaluation of the code): starting from `frame = 0`, none of the first
250 invocations of the callback resets the body, and they leave `frame = 250`;
the reset (spawn position, angle 0, zero velocities, `frame = 0`) is performed
by the 251st invocation. -/
theorem first_reset_is_invocation_251 (u : α) (w : World α) (s : Loop α) (nows : List Int)
    (now : Int) (h0 : s.frame = 0) (hlen : nows.length = 250) :
    (∀ r ∈ frameReturns u w nows s, r = none) ∧
    (runFrames u w nows s).frame = 250 ∧
    (onBeforeRender u w now (runFrames u w nows s)).1 = some 0 ∧
    (onBeforeRender u w now (runFrames u w nows s)).2.frame = 0 ∧
    (onBeforeRender u w now (runFrames u w nows s)).2.sphereRigidBody.position =
      b2Vec2.mk (2.5 / u) (5 / u) ∧
    (onBeforeRender u w now (runFrames u w nows s)).2.sphereRigidBody.angle = 0 ∧
    (onBeforeRender u w now (runFrames u w nows s)).2.sphereRigidBody.linearVelocity =
      b2Vec2.mk 0 0 ∧
    (onBeforeRender u w now (runFrames u w nows s)).2.sphereRigidBody.angularVelocity = 0 := by
  obtain ⟨hf, hr⟩ := runFrames_counting u w nows s (by omega)
  have hf2 : (runFrames u w nows s).frame = 250 := by omega
  obtain ⟨h1, h2, -, -, -, -, h7⟩ := onBeforeRender_eq u w now (runFrames u w nows s)
  simp only [hf2, ge_iff_le, le_refl, if_true] at h1 h2 h7
  refine ⟨hr, hf2, h1, h2, ?_, ?_, ?_, ?_⟩ <;> rw [h7]

/-- The demo at `unitsPerMeter = 3` with an idle solver and 250 frames at the
timestamp 16: `frame = 250` after them, and `0` after one more. -/
theorem first_reset_is_invocation_251_witness :
    (init (3 : ℚ) 0).frame = 0 ∧ (List.replicate 250 (16 : Int)).length = 250 ∧
    (runFrames (3 : ℚ) idleWorld (List.replicate 250 16) (init 3 0)).frame = 250 ∧
    (onBeforeRender (3 : ℚ) idleWorld 16
      (runFrames (3 : ℚ) idleWorld (List.replicate 250 16) (init 3 0))).2.frame = 0 :=
  ⟨rfl, List.length_replicate .., 
    (first_reset_is_invocation_251 3 idleWorld (init 3 0) (List.replicate 250 16) 16 rfl
      (List.length_replicate ..)).2.1,
    (first_reset_is_invocation_251 3 idleWorld (init 3 0) (List.replicate 250 16) 16 rfl
      (List.length_replicate ..)).2.2.2.1⟩

/-- C9 (evaluation of the code): from the initial state the counter never
exceeds 250, and after 250 invocations it is 250, which is not below the
threshold 250. -/
theorem frame_reaches_threshold (u : α) (w : World α) (t0 now : Int) (nows : List Int) :
    (runFrames u w nows (init u t0)).frame ≤ 250 ∧
    (runFrames u w (List.replicate 250 now) (init u t0)).frame = 250 ∧
    ¬ (runFrames u w (List.replicate 250 now) (init u t0)).frame < 250 := by
  have hlen : (List.replicate 250 now).length = 250 := List.length_replicate ..
  have h0 : (init u t0).frame = 0 := rfl
  have h := (runFrames_counting u w (List.replicate 250 now) (init u t0)
    (by rw [hlen, h0])).1
  have h250 : (runFrames u w (List.replicate 250 now) (init u t0)).frame = 250 := by
    rw [h, hlen, h0]
  exact ⟨runFrames_frame_le u w nows (init u t0) (by rw [h0]; omega), h250, by omega⟩

/-- C8 (as amended): in every invocation the body is mirrored before the
simulation is stepped: the mesh position written is `unitsPerMeter` times the
position of the body before the `Step` of this invocation, with `z = 0`, the mesh
`rotation.z` is the angle of the body before the `Step`, and the `Step` is then
applied to that body (followed by the reset when `frame >= 250`). -/
theorem mirror_precedes_step (u : α) (w : World α) (now : Int) (s : Loop α) :
    (onBeforeRender u w now s).2.sphere.absolutePosition =
      Vector3.mk (u * s.sphereRigidBody.position.x) (u * s.sphereRigidBody.position.y) 0 ∧
    (onBeforeRender u w now s).2.sphere.rotation.z = s.sphereRigidBody.angle ∧
    (onBeforeRender u w now s).2.sphereRigidBody =
      (if s.frame ≥ 250 then
        { w.Step (((now - s.lastTime : Int) : α) / 1000) 3 2 s.sphereRigidBody with
          position := b2Vec2.mk (2.5 / u) (5 / u)
          angle := 0
          linearVelocity := b2Vec2.mk 0 0
          angularVelocity := 0 }
      else w.Step (((now - s.lastTime : Int) : α) / 1000) 3 2 s.sphereRigidBody) := by
  obtain ⟨-, -, h3, h4, -, -, h7⟩ := onBeforeRender_eq u w now s
  refine ⟨?_, h4, h7⟩
  rw [h3, mul_comm u, mul_comm u]

end FrameTheorems

/-- C8 (counterexample): with `unitsPerMeter = 3` and a solver whose `Step`
moves the body to `(1, 1)` and turns it to the angle `dt`, the first invocation
at `Date.now() = 16` leaves the body at `(1, 1)` with angle `16/1000`, but the
mesh at `(2.5, 5, 0)`, the scaled spawn position, with `rotation.z = 0`: not
`3 * (1, 1)` and not the angle after the `Step`. -/
theorem mirror_after_step_counterexample :
    (onBeforeRender (3 : ℚ) probeWorld 16 (init 3 0)).2.sphereRigidBody.position
      = b2Vec2.mk 1 1 ∧
    (onBeforeRender (3 : ℚ) probeWorld 16 (init 3 0)).2.sphereRigidBody.angle = 16 / 1000 ∧
    (onBeforeRender (3 : ℚ) probeWorld 16 (init 3 0)).2.sphere.absolutePosition
      = Vector3.mk 2.5 5 0 ∧
    (onBeforeRender (3 : ℚ) probeWorld 16 (init 3 0)).2.sphere.absolutePosition
      ≠ Vector3.mk (3 * 1) (3 * 1) 0 ∧
    (onBeforeRender (3 : ℚ) probeWorld 16 (init 3 0)).2.sphere.rotation.z = 0 ∧
    (onBeforeRender (3 : ℚ) probeWorld 16 (init 3 0)).2.sphere.rotation.z
      ≠ (onBeforeRender (3 : ℚ) probeWorld 16 (init 3 0)).2.sphereRigidBody.angle := by
  obtain ⟨-, -, h3, h4, -, -, h7⟩ := onBeforeRender_eq (3 : ℚ) probeWorld 16 (init 3 0)
  have hf : ¬ (init (3 : ℚ) 0).frame ≥ 250 := by simp [init]
  simp only [hf, if_false] at h7
  rw [h3, h4, h7]
  simp [init, probeWorld]
  norm_num

/-- C5 (as amended): the `dt` passed to `world.Step` is exactly
`(currentTime - lastTime) / 1000`, unclamped: it is non-negative exactly when
`currentTime >= lastTime` and negative when `currentTime < lastTime`. -/
theorem dt_is_unclamped_difference {α : Type} [LinearOrderedField α] (u : α) (w : World α)
    (now : Int) (s : Loop α) :
    (onBeforeRender u w now s).2.dt = some (((now - s.lastTime : Int) : α) / 1000) ∧
    (onBeforeRender u w now s).2.sphereRigidBody =
      (if s.frame ≥ 250 then
        { w.Step (((now - s.lastTime : Int) : α) / 1000) 3 2 s.sphereRigidBody with
          position := b2Vec2.mk (2.5 / u) (5 / u)
          angle := 0
          linearVelocity := b2Vec2.mk 0 0
          angularVelocity := 0 }
      else w.Step (((now - s.lastTime : Int) : α) / 1000) 3 2 s.sphereRigidBody) ∧
    ((0 : α) ≤ ((now - s.lastTime : Int) : α) / 1000 ↔ s.lastTime ≤ now) ∧
    (((now - s.lastTime : Int) : α) / 1000 < 0 ↔ now < s.lastTime) := by
  obtain ⟨-, -, -, -, h5, -, h7⟩ := onBeforeRender_eq u w now s
  refine ⟨h5, h7, ?_, ?_⟩
  · rw [le_div_iff₀ (by norm_num : (0 : α) < 1000), zero_mul]
    exact_mod_cast (sub_nonneg : 0 ≤ now - s.lastTime ↔ s.lastTime ≤ now)
  · rw [div_lt_iff₀ (by norm_num : (0 : α) < 1000), zero_mul]
    exact_mod_cast (sub_neg : now - s.lastTime < 0 ↔ now < s.lastTime)

/-- C5 (counterexample): with `lastTime = 1000` and `Date.now() = 0` the
callback computes `dt = -1` and passes it to `world.Step`: the probe solver
stores the `dt` it receives in the angle of the body, which is `-1` afterwards. -/
theorem negative_dt_counterexample :
    (onBeforeRender (3 : ℚ) probeWorld 0 (init 3 1000)).2.dt = some (-1) ∧
    (onBeforeRender (3 : ℚ) probeWorld 0 (init 3 1000)).2.sphereRigidBody.angle = -1 ∧
    ¬ (0 : ℚ) ≤ (onBeforeRender (3 : ℚ) probeWorld 0 (init 3 1000)).2.sphereRigidBody.angle := by
  obtain ⟨-, -, -, -, h5, -, h7⟩ := onBeforeRender_eq (3 : ℚ) probeWorld 0 (init 3 1000)
  have hf : ¬ (init (3 : ℚ) 1000).frame ≥ 250 := by simp [init]
  simp only [hf, if_false] at h7
  rw [h5, h7]
  simp [init, probeWorld]

end DebugDrawerBox2D
